import Mathlib

/-!
Shallow embedding of the streaming measurement pipeline in
`Labview/examples/plot_cvst.py` and of the response parser in
`Labview/qt7600.py`.

Python floats are modelled as rationals; a raised Python exception is
`Except.error ()` or, where only success/failure matters, `none`.
-/

namespace ForLCRmeter

/-- One acquisition tick's result, as put on `data_queue` by
`measurement_worker` (dict keys `time`, `temp`, `field`, `cap`). -/
structure Sample where
  time : ℚ
  temp : Option ℚ
  field : Option ℚ
  cap : Option ℚ
deriving Repr, DecidableEq

/-- Numeric value of a list of decimal digit characters. -/
def digitsVal (l : List Char) : ℕ :=
  l.foldl (fun a c => 10 * a + (c.toNat - 48)) 0

/-- Model of Python `float(s)` on finite decimal literals: optional
surrounding whitespace, optional sign, digits with at most one decimal
point (at least one digit overall), optional exponent.  Returns `none`
where `float` raises `ValueError`.  (The special spellings inf and nan
have no rational value and do not occur in instrument responses.) -/
def pyFloat (s : String) : Option ℚ :=
  let cs := s.trim.toList
  let sp : ℚ × List Char :=
    match cs with
    | '+' :: r => (1, r)
    | '-' :: r => (-1, r)
    | r => (1, r)
  let ipp := sp.2.span (fun c => c.isDigit)
  let fpp : List Char × List Char :=
    match ipp.2 with
    | '.' :: r => r.span (fun c => c.isDigit)
    | r => ([], r)
  if ipp.1.isEmpty && fpp.1.isEmpty then none
  else
    let mant : ℚ :=
      sp.1 * ((digitsVal ipp.1 : ℚ) + (digitsVal fpp.1 : ℚ) / (10 : ℚ) ^ fpp.1.length)
    match fpp.2 with
    | [] => some mant
    | e :: r =>
      if e = 'e' || e = 'E' then
        let ep : ℤ × List Char :=
          match r with
          | '+' :: r2 => (1, r2)
          | '-' :: r2 => (-1, r2)
          | r2 => (1, r2)
        let edp := ep.2.span (fun c => c.isDigit)
        if edp.1.isEmpty || !edp.2.isEmpty then none
        else some (mant * (10 : ℚ) ^ (ep.1 * (digitsVal edp.1 : ℤ)))
      else none

namespace Qt7600

/-- The dict returned by `Qt7600._parse_fetch_response`. -/
structure FetchResult where
  raw : String
  primary : Option ℚ
  secondary : Option ℚ
  units : Option String
deriving Repr, DecidableEq

/-- `Qt7600._parse_fetch_response`: on an empty response return the
all-`None` dict at once; otherwise split on tabs, set `primary` from
field 1 and `units` from field 2 when there are at least 3 fields and
field 1 parses as a float, and set `secondary` from field 4 when there
are at least 5 fields and it parses.  Parse failures are caught
(`except (ValueError, IndexError): pass`), so the method never raises. -/
def parse_fetch_response (raw : String) : FetchResult :=
  if raw = "" then ⟨raw, none, none, none⟩
  else
    let parts := raw.split (fun c => c = '\t')
    let pu : Option ℚ × Option String :=
      if 3 ≤ parts.length then
        match pyFloat (parts.getD 1 "") with
        | some v => (some v, some (parts.getD 2 ""))
        | none => (none, none)
      else (none, none)
    let secondary : Option ℚ :=
      if 5 ≤ parts.length then pyFloat (parts.getD 4 "") else none
    ⟨raw, pu.1, secondary, pu.2⟩

end Qt7600

/-- Longest prefix of `cs` matched by the float-literal regular
expression used in `parse_first_float` (sign, digits, at most one
decimal point with at least one digit after it, optional exponent);
greedy matching yields the longest such prefix for this pattern.
`none` when no match starts at this position. -/
def floatTokenAt (cs : List Char) : Option (List Char) :=
  let sp : List Char × List Char :=
    match cs with
    | '+' :: r => (['+'], r)
    | '-' :: r => (['-'], r)
    | r => ([], r)
  let ipp := sp.2.span (fun c => c.isDigit)
  let mantPair : Option (List Char × List Char) :=
    match ipp.2 with
    | '.' :: r =>
      let fpp := r.span (fun c => c.isDigit)
      if fpp.1.isEmpty then
        if ipp.1.isEmpty then none else some (ipp.1, ipp.2)
      else some (ipp.1 ++ '.' :: fpp.1, fpp.2)
    | r => if ipp.1.isEmpty then none else some (ipp.1, r)
  match mantPair with
  | none => none
  | some (mant, rest) =>
    let token := sp.1 ++ mant
    match rest with
    | [] => some token
    | e :: r =>
      if e = 'e' || e = 'E' then
        let ep : List Char × List Char :=
          match r with
          | '+' :: r2 => (['+'], r2)
          | '-' :: r2 => (['-'], r2)
          | r2 => ([], r2)
        let edp := ep.2.span (fun c => c.isDigit)
        if edp.1.isEmpty then some token
        else some (token ++ e :: ep.1 ++ edp.1)
      else some token

/-- Scan left to right for the first position where the float regular
expression matches (semantics of `re.search`). -/
def firstFloatToken : List Char → Option (List Char)
  | [] => none
  | c :: rest =>
    match floatTokenAt (c :: rest) with
    | some t => some t
    | none => firstFloatToken rest

/-- `parse_first_float` from plot_cvst.py: `None` input yields `None`;
otherwise regex-search the first float literal in the string and
convert it with `float`, mapping any failure to `None`. -/
def parse_first_float (s : Option String) : Option ℚ :=
  match s with
  | none => none
  | some str =>
    match firstFloatToken str.toList with
    | none => none
    | some tok => pyFloat (String.mk tok)

/-- State of `QuantumDesignClient` in plot_cvst.py: `clientOpen` says
whether `self.client` holds a live MultiPyVu client (it is `None` until
a successful live `open`), `counter` drives the mock ramps. -/
structure QDClient where
  mock : Bool
  clientOpen : Bool
  counter : ℕ
deriving Repr, DecidableEq

/-- `QuantumDesignClient.get_temperature`: mock mode returns the ramp
`300.0 - counter * 5.0`; live mode raises when the client is not open,
and otherwise yields whatever `client.get_temperature()` does (the
parameter `ext`; a raised failure is `Except.error ()`). -/
def QDClient.get_temperature (qd : QDClient) (ext : Except Unit ℚ) : Except Unit ℚ :=
  if qd.mock then .ok (300 - (qd.counter : ℚ) * 5)
  else if !qd.clientOpen then .error ()
  else ext

/-- `QuantumDesignClient.get_field`: mock mode returns
`counter * 500.0`; live mode as for temperature. -/
def QDClient.get_field (qd : QDClient) (ext : Except Unit ℚ) : Except Unit ℚ :=
  if qd.mock then .ok ((qd.counter : ℚ) * 500)
  else if !qd.clientOpen then .error ()
  else ext

/-- Sub-resources of the live `QuantumDesignClient`: the MultiPyVu
server session and the client session. -/
structure QDResources where
  serverOpen : Bool
  clientOpen : Bool
deriving Repr, DecidableEq

/-- `QuantumDesignClient.open` for the live variant: runs
`self.server.__enter__()` and then `self.client = mpv.Client().__enter__()`.
`serverOk` and `clientOk` say whether each enter succeeds; a failure
propagates out of `open`, leaving whatever was already acquired as is.
Returns the resource state together with whether `open` returned
normally. -/
def qdOpen (serverOk clientOk : Bool) : QDResources × Bool :=
  if serverOk then
    if clientOk then (⟨true, true⟩, true) else (⟨true, false⟩, false)
  else (⟨false, false⟩, false)

/-- `QuantumDesignClient.close` for the live variant: returns
immediately when `self.client is None`; otherwise exits the client and
the server, swallowing exceptions. -/
def qdClose (r : QDResources) : QDResources :=
  if !r.clientOpen then r else ⟨false, false⟩

/-- Resource state once main's startup of the Quantum Design client is
over: on an `open` failure, main prints the error, closes only the QT
port and returns — it does not call `qd.close()` — so the state is
exactly what `open` left behind. -/
def startupResources (serverOk clientOk : Bool) : QDResources :=
  (qdOpen serverOk clientOk).1

/-- The check `hasattr(qd, 'client')` in `measurement_worker` is
always true: `QuantumDesignClient.__init__` sets the attribute
(`self.client = None`) unconditionally. -/
def hasattrClient : Bool := true

/-- The capacitance step of `measurement_worker`.  When `qt` is `None`
(mock-qt mode), `qt.measure_and_fetch()` raises AttributeError, which
the surrounding `except` turns into `None`.  When `qt` is present, a
raised fetch is caught likewise, and a parsed response whose `primary`
is `None` falls back to `parse_first_float` on the raw text. -/
def capRead (qtPresent : Bool) (qdMock : Bool)
    (fetchRes : Except Unit Qt7600.FetchResult) : Option ℚ :=
  if qdMock || hasattrClient then
    if qtPresent then
      match fetchRes with
      | .error _ => none
      | .ok res =>
        match res.primary with
        | some v => some v
        | none => parse_first_float (some res.raw)
    else none
  else none

/-- Whether the per-tick status print succeeds.  The worker prints the
f-string with `T={t:.2f}` and `F={f:.0f}`: formatting `None` with a
numeric format spec raises TypeError, while the plain `C={cval}` field
never raises. -/
def statusPrintOk (t f : Option ℚ) : Bool :=
  t.isSome && f.isSome

/-- What one worker iteration did: the sample it put on the queue, and
whether the iteration then crashed the worker thread. -/
structure TickOutcome where
  pushed : Sample
  crashed : Bool
deriving Repr, DecidableEq

/-- One iteration of `measurement_worker`: each of the three reads has
its failure caught and recorded as `None`; the sample dict is put on
`data_queue`; then the status print runs — if it raises (temperature or
field `None`), the exception escapes the `while` loop and the worker
thread dies before incrementing `counter`; otherwise `counter` is
incremented and the worker sleeps and continues. -/
def workerTick (qtPresent : Bool) (qd : QDClient) (elapsed : ℚ)
    (extTemp extField : Except Unit ℚ)
    (fetchRes : Except Unit Qt7600.FetchResult) : TickOutcome × QDClient :=
  let t := (qd.get_temperature extTemp).toOption
  let f := (qd.get_field extField).toOption
  let c := capRead qtPresent qd.mock fetchRes
  let s : Sample := ⟨elapsed, t, f, c⟩
  if statusPrintOk t f then
    (⟨s, false⟩, { qd with counter := qd.counter + 1 })
  else
    (⟨s, true⟩, qd)

/-- The mock client at worker start: `--mock-q`, `counter` reset to 0
by the first line of `measurement_worker`. -/
def mockQD : QDClient := ⟨true, false, 0⟩

/-- The samples pushed by the first `n` ticks of a fully mocked worker
(`--mock-q --mock-qt`, so `qt` is `None`); `ts i` is the elapsed time
the worker observes at tick `i`.  The external-read arguments are
irrelevant in mock mode and passed as failures. -/
def mockRun (ts : ℕ → ℚ) : ℕ → List Sample × QDClient
  | 0 => ([], mockQD)
  | n + 1 =>
    let p := mockRun ts n
    let step := workerTick false p.2 (ts n) (.error ()) (.error ()) (.error ())
    (p.1 ++ [step.1.pushed], step.2)

/-- A producer or consumer event on `data_queue`: one `put` by the
worker, or one consumer `get`. -/
inductive ChanStep where
  | push (s : Sample)
  | pop
deriving Repr, DecidableEq

/-- The queue contents together with the aggregate of all samples the
consumer has obtained so far, in the order it obtained them. -/
structure ChanState where
  queue : List Sample
  popped : List Sample
deriving Repr, DecidableEq

/-- `queue.Queue` semantics for one event: `put` appends at the back
(FIFO, unbounded capacity); `get(timeout=0.1)` removes the front
element when one is present and otherwise raises `Empty` after the
timeout (caught by the consumer, which then does nothing). -/
def chanStep (st : ChanState) : ChanStep → ChanState
  | .push s => ⟨st.queue ++ [s], st.popped⟩
  | .pop =>
    match st.queue with
    | [] => st
    | s :: rest => ⟨rest, st.popped ++ [s]⟩

/-- Run a trace of queue events from the empty queue. -/
def chanRun (steps : List ChanStep) : ChanState :=
  steps.foldl chanStep ⟨[], []⟩

/-- The samples pushed over a trace, in producer order. -/
def pushedOf (steps : List ChanStep) : List Sample :=
  steps.filterMap fun st =>
    match st with
    | .push s => some s
    | .pop => none

/-- One delivery-loop iteration's channel interaction: a single
`data_queue.get(timeout=0.1)` — the FIFO head when the queue is
non-empty, otherwise nothing (the `Empty` raised after the timeout is
caught by the bare `except`).  At most one sample leaves the queue per
iteration. -/
def iterGet (q : List Sample) : Option Sample × List Sample :=
  match q with
  | [] => (none, [])
  | s :: rest => (some s, rest)

/-- One line of the tab-delimited data file.  `headerF` is the header
main writes when the file is first created (units `Capacitance (F)`),
`headerPF` the one the end-of-run save block writes
(`Capacitance (pF)`); `data` is one sample row (the textual rendering
of the numbers is abstracted); `prior` is a line that was already in
the file before this run. -/
inductive FileLine where
  | headerF
  | headerPF
  | data (time : ℚ) (temp field cap : Option ℚ)
  | prior (s : String)
deriving Repr, DecidableEq

/-- Mutable state of main's delivery loop: the four parallel lists, the
delivered-sample count, and the data rows appended to the open data
file so far. -/
structure LoopState where
  temps : List (Option ℚ)
  caps : List (Option ℚ)
  fields : List (Option ℚ)
  times : List ℚ
  sampleCount : ℕ
  logLines : List FileLine
deriving Repr, DecidableEq

/-- Loop state at the start of main's measurement loop. -/
def initState : LoopState := ⟨[], [], [], [], 0, []⟩

/-- The body run on one `get` outcome: on a sample, append to the four
lists, bump `sample_count`, and — when a data file is open — write and
flush one row (a failing row write is printed and does not stop the
loop); on a `get` timeout (`none`) the state is unchanged. -/
def procIter (hasLog : Bool) (st : LoopState) : Option Sample → LoopState
  | none => st
  | some d =>
    { temps := st.temps ++ [d.temp]
      caps := st.caps ++ [d.cap]
      fields := st.fields ++ [d.field]
      times := st.times ++ [d.time]
      sampleCount := st.sampleCount + 1
      logLines := st.logLines ++ if hasLog then [.data d.time d.temp d.field d.cap] else [] }

/-- Main's delivery loop: at the top of each iteration, break when not
continuous and `sample_count >= args.samples`; otherwise process the
next `get` outcome, refresh the canvas, and iterate.  `evs` is the
finite trace of `get` outcomes observed; the Boolean reports whether
the loop exited through the sample-limit break within that trace. -/
def mainLoop (continuous : Bool) (limit : ℕ) (hasLog : Bool) :
    List (Option Sample) → LoopState → LoopState × Bool
  | [], st =>
    if !continuous && limit ≤ st.sampleCount then (st, true) else (st, false)
  | e :: rest, st =>
    if !continuous && limit ≤ st.sampleCount then (st, true)
    else mainLoop continuous limit hasLog rest (procIter hasLog st e)

/-- Contents of the data file right after main opens it: append mode
keeps any existing contents, and the header row is written only when
the file did not previously exist. -/
def fileAfterOpen (exists0 : Bool) (prior : List FileLine) : List FileLine :=
  if exists0 then prior else [.headerF]

/-- The final `xs` filter in main: pairs from `zip(temps, caps)` (or
`zip(fields, caps)` when plotting against field) in which both values
are present; `xs` keeps the axis value. -/
def xsOf (plotVsTemp : Bool) (st : LoopState) : List ℚ :=
  let axis := if plotVsTemp then st.temps else st.fields
  (axis.zip st.caps).filterMap fun p =>
    match p.1, p.2 with
    | some a, some _ => some a
    | _, _ => none

/-- The rows the end-of-run save block writes:
`zip(times, temps, fields, caps)` over the whole run. -/
def zipRows (st : LoopState) : List FileLine :=
  (st.times.zip (st.temps.zip (st.fields.zip st.caps))).map fun r =>
    .data r.1 r.2.1 r.2.2.1 r.2.2.2

/-- Contents of the data file once main returns.  When no plotted pair
is complete, main prints a no-valid-data message and returns before the
save block, leaving the appended file as is; otherwise the save block
reopens the path with mode w — truncating the file — and writes the
`headerPF` row followed by every row of this run. -/
def fileAtShutdown (plotVsTemp exists0 : Bool) (prior : List FileLine)
    (st : LoopState) : List FileLine :=
  let during := fileAfterOpen exists0 prior ++ st.logLines
  if (xsOf plotVsTemp st).isEmpty then during
  else .headerPF :: zipRows st

/-- The temperature column of a data row (`none` on header and prior
lines). -/
def lineTemp : FileLine → Option (Option ℚ)
  | .data _ t _ _ => some t
  | _ => none

/-- Which shutdown steps ran, and whether an exception escaped the
`finally` block. -/
structure ShutdownResult where
  qtCloseRan : Bool
  qdCloseRan : Bool
  exportRan : Bool
  raised : Bool
deriving Repr, DecidableEq

set_option linter.unusedVariables false in
/-- The shutdown sequence of main: the `finally` block runs
`data_file.close()`, `qt.close()`, `qd.close()`, `plt.ioff()` in order
with no per-step exception handling — only `qd.close` swallows its own
errors internally — and the plot/data export code after the `finally`
runs only when no exception escaped it.  `failFileClose` and
`failQtClose` say whether the respective close raises; `failQdClose`
says whether the exits inside `qd.close` raise (they are caught there,
so the flag changes nothing). -/
def runShutdown (hasFile hasQt failFileClose failQtClose failQdClose : Bool) :
    ShutdownResult :=
  if hasFile && failFileClose then ⟨false, false, false, true⟩
  else if hasQt && failQtClose then ⟨true, false, false, true⟩
  else ⟨hasQt, true, true, false⟩

/-! ## Helper lemmas -/

/-- The sample a worker iteration pushes carries the three read
outcomes, each failure recorded as `none`. -/
theorem workerTick_pushed (qtPresent : Bool) (qd : QDClient) (elapsed : ℚ)
    (eT eF : Except Unit ℚ) (fr : Except Unit Qt7600.FetchResult) :
    (workerTick qtPresent qd elapsed eT eF fr).1.pushed =
      ⟨elapsed, (qd.get_temperature eT).toOption, (qd.get_field eF).toOption,
        capRead qtPresent qd.mock fr⟩ := by
  unfold workerTick
  dsimp only
  split <;> rfl

/-- A worker iteration crashes the thread exactly when the status print
raises, which happens exactly when temperature or field is `none`. -/
theorem workerTick_crashed (qtPresent : Bool) (qd : QDClient) (elapsed : ℚ)
    (eT eF : Except Unit ℚ) (fr : Except Unit Qt7600.FetchResult) :
    (workerTick qtPresent qd elapsed eT eF fr).1.crashed =
      !statusPrintOk (qd.get_temperature eT).toOption (qd.get_field eF).toOption := by
  unfold workerTick
  dsimp only
  split <;> simp_all

/-- Once the delivery loop breaks on the sample limit, the delivered
count equals the limit exactly, provided it started at or below it. -/
theorem mainLoop_break_count (limit : ℕ) (hasLog : Bool) :
    ∀ (evs : List (Option Sample)) (st : LoopState),
      st.sampleCount ≤ limit →
      (mainLoop false limit hasLog evs st).2 = true →
      (mainLoop false limit hasLog evs st).1.sampleCount = limit := by
  intro evs
  induction evs with
  | nil =>
    intro st hle hbrk
    by_cases h : limit ≤ st.sampleCount
    · simp [mainLoop, h] at hbrk ⊢
      omega
    · simp [mainLoop, h] at hbrk
  | cons e rest ih =>
    intro st hle hbrk
    by_cases h : limit ≤ st.sampleCount
    · simp [mainLoop, h] at hbrk ⊢
      omega
    · simp only [mainLoop, h, Bool.not_false, Bool.true_and, if_neg] at hbrk ⊢
      refine ih _ ?_ hbrk
      cases e <;> simp [procIter] <;> omega

/-- The non-continuous delivery loop does break once enough samples
have arrived on its trace of `get` outcomes. -/
theorem mainLoop_terminates (limit : ℕ) (hasLog : Bool) :
    ∀ (evs : List (Option Sample)) (st : LoopState),
      limit ≤ st.sampleCount + (evs.filterMap id).length →
      (mainLoop false limit hasLog evs st).2 = true := by
  intro evs
  induction evs with
  | nil =>
    intro st h
    simp at h
    simp [mainLoop, h]
  | cons e rest ih =>
    intro st h
    by_cases hb : limit ≤ st.sampleCount
    · simp [mainLoop, hb]
    · simp only [mainLoop, hb, if_neg, Bool.not_false, Bool.true_and]
      refine ih _ ?_
      cases e with
      | none => simpa using h
      | some d => simp [procIter] at h ⊢; omega

/-- The history length always equals the delivered-sample count. -/
theorem mainLoop_temps_count (limit : ℕ) (hasLog : Bool) :
    ∀ (evs : List (Option Sample)) (st : LoopState),
      st.temps.length = st.sampleCount →
      (mainLoop false limit hasLog evs st).1.temps.length =
        (mainLoop false limit hasLog evs st).1.sampleCount := by
  intro evs
  induction evs with
  | nil =>
    intro st h
    by_cases hb : limit ≤ st.sampleCount <;> simp [mainLoop, hb, h]
  | cons e rest ih =>
    intro st h
    by_cases hb : limit ≤ st.sampleCount
    · simp [mainLoop, hb, h]
    · simp only [mainLoop, hb, if_neg, Bool.not_false, Bool.true_and]
      refine ih _ ?_
      cases e <;> simp [procIter, h]

/-- FIFO conservation: what the consumer has popped, followed by what
is still queued, is exactly the push sequence in producer order. -/
theorem chanRun_inv :
    ∀ (steps : List ChanStep) (st : ChanState),
      (steps.foldl chanStep st).popped ++ (steps.foldl chanStep st).queue =
        st.popped ++ st.queue ++ pushedOf steps := by
  intro steps
  induction steps with
  | nil => intro st; simp [pushedOf]
  | cons s rest ih =>
    intro st
    cases s with
    | push x =>
      simp only [List.foldl_cons, chanStep, pushedOf, List.filterMap_cons]
      rw [ih]
      simp [pushedOf]
    | pop =>
      simp only [List.foldl_cons, chanStep, pushedOf, List.filterMap_cons]
      cases hq : st.queue with
      | nil => rw [ih]; simp [pushedOf, hq]
      | cons a q => rw [ih]; simp [pushedOf, hq]

/-- In continuous mode the loop never breaks: it folds its processing
step over every `get` outcome. -/
theorem mainLoop_continuous_all (limit : ℕ) (hasLog : Bool) :
    ∀ (l : List Sample) (st : LoopState),
      mainLoop true limit hasLog (l.map some) st =
        (l.foldl (fun s d => procIter hasLog s (some d)) st, false) := by
  intro l
  induction l with
  | nil => intro st; simp [mainLoop]
  | cons d rest ih => intro st; simp [mainLoop, ih]

/-- Folding the processing step appends every sample's fields, and its
log row, in delivery order. -/
theorem procIter_fold (hasLog : Bool) :
    ∀ (l : List Sample) (st : LoopState),
      (l.foldl (fun s d => procIter hasLog s (some d)) st).temps =
          st.temps ++ l.map Sample.temp ∧
      (l.foldl (fun s d => procIter hasLog s (some d)) st).caps =
          st.caps ++ l.map Sample.cap ∧
      (l.foldl (fun s d => procIter hasLog s (some d)) st).fields =
          st.fields ++ l.map Sample.field ∧
      (l.foldl (fun s d => procIter hasLog s (some d)) st).times =
          st.times ++ l.map Sample.time ∧
      (l.foldl (fun s d => procIter hasLog s (some d)) st).logLines =
          st.logLines ++
            (if hasLog then l.map (fun d => .data d.time d.temp d.field d.cap) else []) := by
  intro l
  induction l with
  | nil => intro st; simp
  | cons d rest ih =>
    intro st
    simp only [List.foldl_cons, List.map_cons]
    obtain ⟨h1, h2, h3, h4, h5⟩ := ih (procIter hasLog st (some d))
    rw [h1, h2, h3, h4, h5]
    cases hasLog <;> simp [procIter]

/-- The first five ticks of the fully mocked worker, explicitly. -/
theorem mockRun_five (ts : ℕ → ℚ) :
    (mockRun ts 5).1 =
      [⟨ts 0, some 300, some 0, none⟩,
       ⟨ts 1, some 295, some 500, none⟩,
       ⟨ts 2, some 290, some 1000, none⟩,
       ⟨ts 3, some 285, some 1500, none⟩,
       ⟨ts 4, some 280, some 2000, none⟩] := by
  show (mockRun ts (4+1)).1 = _
  norm_num [mockRun, workerTick, QDClient.get_temperature, QDClient.get_field,
    capRead, hasattrClient, statusPrintOk, mockQD, Except.toOption]

/-! ## Claim theorems -/

/-- C1: evaluation of `measurement_worker` at a failing input.  In a
live tick whose temperature read raises, the pushed sample does record
temperature as unavailable (`none`) — but the status print that
follows formats `None` with a numeric format spec, raises TypeError,
and the worker thread dies instead of continuing to the next tick. -/
theorem C1_failed_read_crashes_worker :
    ((workerTick true ⟨false, true, 0⟩ 0 (.error ()) (.ok 1) (.error ())).1.pushed.temp
        = none) ∧
    ((workerTick true ⟨false, true, 0⟩ 0 (.error ()) (.ok 1) (.error ())).1.pushed.field
        = some 1) ∧
    ((workerTick true ⟨false, true, 0⟩ 0 (.error ()) (.ok 1) (.error ())).1.crashed
        = true) := by
  decide

/-- C2 counterexample: the durable data log is not append-only through
shutdown.  With an existing file holding one prior line and one
delivered sample with both plotted values present, the end-of-run save
block reopens the path in write mode and the prior line is gone from
the final file, although it was present during the run. -/
theorem C2_prior_contents_destroyed :
    (FileLine.prior "old line" ∈
      fileAfterOpen true [.prior "old line"] ++
        (procIter true initState (some ⟨0, some 300, some 0, some 1⟩)).logLines) ∧
    (FileLine.prior "old line" ∉
      fileAtShutdown true true [.prior "old line"]
        (procIter true initState (some ⟨0, some 300, some 0, some 1⟩))) := by
  decide

/-- C2 amended: during the run the file grows append-only over its
prior contents and the header is written exactly when the file did not
exist; but at shutdown, whenever at least one sample has both plotted
values, the save block truncates the file and writes a fresh header
plus only this run's rows, discarding the prior contents — they
survive only when no such sample exists. -/
theorem C2_append_then_rewrite (exists0 plotVsTemp : Bool) (prior : List FileLine)
    (st : LoopState) :
    (fileAfterOpen true prior = prior) ∧
    (fileAfterOpen false prior = [.headerF]) ∧
    ((xsOf plotVsTemp st).isEmpty = true →
      fileAtShutdown plotVsTemp exists0 prior st =
        fileAfterOpen exists0 prior ++ st.logLines) ∧
    ((xsOf plotVsTemp st).isEmpty = false →
      fileAtShutdown plotVsTemp exists0 prior st = .headerPF :: zipRows st) := by
  refine ⟨by simp [fileAfterOpen], by simp [fileAfterOpen], ?_, ?_⟩ <;>
    intro h <;> simp [fileAtShutdown, h]

/-- Witness for C2_append_then_rewrite at a concrete run. -/
theorem C2_append_then_rewrite_witness :
    fileAtShutdown true true [.prior "old line"]
        (procIter true initState (some ⟨0, some 300, some 0, some 1⟩)) =
      .headerPF :: zipRows (procIter true initState (some ⟨0, some 300, some 0, some 1⟩)) :=
  (C2_append_then_rewrite true true [.prior "old line"]
      (procIter true initState (some ⟨0, some 300, some 0, some 1⟩))).2.2.2 (by decide)

/-- C3 counterexample: one consumer iteration does not drain the
channel — with two samples available, its single
`get(timeout=0.1)` removes only one and leaves the other queued. -/
theorem C3_single_get_leaves_samples :
    (iterGet [⟨0, some 300, some 0, none⟩, ⟨1, some 295, some 500, none⟩]).2 ≠ [] := by
  decide

/-- C3 amended: each delivery-loop iteration removes at most one sample
from the channel — the FIFO head, when one is available within the
0.1 s `get` timeout — and that sample is appended to history and
counted by the iteration's processing step, which precedes the
iteration's single canvas refresh. -/
theorem C3_at_most_one_per_iteration (q : List Sample) (hasLog : Bool)
    (st : LoopState) :
    ((iterGet q).1 = q.head?) ∧
    ((iterGet q).2 = q.tail) ∧
    (∀ d, (iterGet q).1 = some d →
      (procIter hasLog st (iterGet q).1).temps = st.temps ++ [d.temp] ∧
      (procIter hasLog st (iterGet q).1).sampleCount = st.sampleCount + 1) := by
  cases q with
  | nil => simp [iterGet]
  | cons a l =>
    refine ⟨by simp [iterGet], by simp [iterGet], ?_⟩
    intro d hd
    simp [iterGet] at hd
    subst hd
    simp [iterGet, procIter]

/-- Witness for C3_at_most_one_per_iteration at a concrete queue. -/
theorem C3_at_most_one_per_iteration_witness :
    (procIter true initState
        (iterGet [⟨0, some 300, some 0, none⟩]).1).sampleCount = 1 :=
  ((C3_at_most_one_per_iteration [⟨0, some 300, some 0, none⟩] true initState).2.2
    ⟨0, some 300, some 0, none⟩ (by decide)).2

/-- C4: with continuous false, whenever the delivery loop exits through
its sample-limit break it has delivered exactly `limit` samples —
never fewer or more — and it does exit once at least `limit` samples
have arrived on its trace of `get` outcomes. -/
theorem C4_exact_sample_limit (limit : ℕ) (hasLog : Bool)
    (evs : List (Option Sample)) :
    ((mainLoop false limit hasLog evs initState).2 = true →
      (mainLoop false limit hasLog evs initState).1.sampleCount = limit ∧
      (mainLoop false limit hasLog evs initState).1.temps.length = limit) ∧
    (limit ≤ (evs.filterMap id).length →
      (mainLoop false limit hasLog evs initState).2 = true) := by
  constructor
  · intro hbrk
    have h1 := mainLoop_break_count limit hasLog evs initState (by simp [initState]) hbrk
    have h2 := mainLoop_temps_count limit hasLog evs initState (by simp [initState])
    exact ⟨h1, h2.trans h1⟩
  · intro h
    exact mainLoop_terminates limit hasLog evs initState (by simpa [initState] using h)

/-- Witness for C4_exact_sample_limit: limit 2, four `get` outcomes of
which three carry samples. -/
theorem C4_exact_sample_limit_witness :
    (mainLoop false 2 true
        [some ⟨0, some 300, some 0, none⟩, none, some ⟨1, some 295, some 500, none⟩,
          some ⟨2, some 290, some 1000, none⟩] initState).2 = true ∧
    (mainLoop false 2 true
        [some ⟨0, some 300, some 0, none⟩, none, some ⟨1, some 295, some 500, none⟩,
          some ⟨2, some 290, some 1000, none⟩] initState).1.sampleCount = 2 := by
  have h := C4_exact_sample_limit 2 true
    [some ⟨0, some 300, some 0, none⟩, none, some ⟨1, some 295, some 500, none⟩,
      some ⟨2, some 290, some 1000, none⟩]
  have hb := h.2 (by decide)
  exact ⟨hb, (h.1 hb).1⟩

/-- C5: evaluation of the mock port at its failing configuration.  In
mock-qt mode the capacitance read yields `None` on every tick, for any
client state and any external outcomes (`qt` is `None`, so
`qt.measure_and_fetch()` raises AttributeError, caught as `None`) —
the mock variant does report the primary measurement unavailable —
while mock temperature and field are numeric and the mock worker never
crashes. -/
theorem C5_mock_primary_always_unavailable (qd : QDClient) (elapsed : ℚ)
    (eT eF : Except Unit ℚ) (fr : Except Unit Qt7600.FetchResult) :
    (workerTick false qd elapsed eT eF fr).1.pushed.cap = none ∧
    (workerTick false mockQD elapsed eT eF fr).1.pushed.temp = some 300 ∧
    (workerTick false mockQD elapsed eT eF fr).1.pushed.field = some 0 ∧
    (workerTick false mockQD elapsed eT eF fr).1.crashed = false := by
  refine ⟨?_, ?_, ?_, ?_⟩
  · rw [workerTick_pushed]
    simp [capRead]
  · rw [workerTick_pushed]
    simp [mockQD, QDClient.get_temperature, Except.toOption]
  · rw [workerTick_pushed]
    simp [mockQD, QDClient.get_field, Except.toOption]
  · rw [workerTick_crashed]
    simp [mockQD, QDClient.get_temperature, QDClient.get_field, statusPrintOk,
      Except.toOption]

/-- C6: the fully mocked run with sample limit 5 and continuous false.
The worker's first five ticks carry temperatures 300, 295, 290, 285,
280; the delivery loop breaks after exactly those five; and the final
data file is the creation header followed by exactly those five sample
rows, whose temperature column reads 300, 295, 290, 285, 280 in order
(capacitance is unavailable throughout the mock run, so the plotted
pairs are all incomplete and the end-of-run rewrite does not fire). -/
theorem C6_mock_run_log (ts : ℕ → ℚ) :
    (mockRun ts 5).1.map Sample.temp =
      [some 300, some 295, some 290, some 285, some 280] ∧
    (mainLoop false 5 true ((mockRun ts 5).1.map some) initState).2 = true ∧
    fileAtShutdown true false []
        (mainLoop false 5 true ((mockRun ts 5).1.map some) initState).1 =
      FileLine.headerF ::
        (mockRun ts 5).1.map (fun d => .data d.time d.temp d.field d.cap) ∧
    (fileAtShutdown true false []
        (mainLoop false 5 true ((mockRun ts 5).1.map some) initState).1).filterMap lineTemp =
      [some 300, some 295, some 290, some 285, some 280] := by
  rw [mockRun_five]
  norm_num [mainLoop, procIter, initState, fileAtShutdown, xsOf, fileAfterOpen,
    zipRows, lineTemp, List.filterMap_cons]

/-- C7 counterexample: when the client enter fails after the server
enter succeeded, the server sub-resource stays acquired — and calling
`close()` does not release it either, since `close` returns at once
while `client` is `None` (main's startup-failure path does not even
call it). -/
theorem C7_server_leaked :
    (startupResources true false).serverOpen = true ∧
    (qdClose (startupResources true false)).serverOpen = true := by decide

/-- C7 amended: `open()` succeeds exactly when both sub-acquisitions
do; after a fully successful `open()`, `close()` releases both
sub-resources; but whenever the client is not open — in particular
after an `open()` that failed between the two acquisitions — `close()`
changes nothing, so a server acquired on that path is never released. -/
theorem C7_close_releases_only_with_client (serverOk clientOk : Bool) :
    ((qdOpen serverOk clientOk).2 = (serverOk && clientOk)) ∧
    (qdClose (qdOpen true true).1 = ⟨false, false⟩) ∧
    ((qdOpen serverOk clientOk).1.clientOpen = false →
      qdClose (qdOpen serverOk clientOk).1 = (qdOpen serverOk clientOk).1) := by
  cases serverOk <;> cases clientOk <;> decide

/-- Witness for C7_close_releases_only_with_client on the leaking
path. -/
theorem C7_close_releases_only_with_client_witness :
    qdClose (qdOpen true false).1 = (qdOpen true false).1 :=
  (C7_close_releases_only_with_client true false).2.2 (by decide)

/-- C8 counterexample: a failing shutdown step prevents the remaining
steps.  When closing the data file raises, neither the instrument-port
close, nor the Quantum Design close, nor the export step runs. -/
theorem C8_failed_step_skips_remaining :
    (runShutdown true true true false false).qtCloseRan = false ∧
    (runShutdown true true true false false).qdCloseRan = false ∧
    (runShutdown true true true false false).exportRan = false := by decide

/-- C8 amended: the shutdown steps run sequentially with no per-step
isolation: a raising data-file close skips every later step; a raising
instrument-port close skips the Quantum Design close and the export;
only the Quantum Design close swallows its own failure (the flag for
it changes nothing); and every step runs when no close raises. -/
theorem C8_shutdown_sequence (hasFile hasQt ff fq fqd fqd2 : Bool) :
    (runShutdown hasFile hasQt ff fq fqd = runShutdown hasFile hasQt ff fq fqd2) ∧
    ((runShutdown hasFile hasQt ff fq fqd).exportRan =
      !(runShutdown hasFile hasQt ff fq fqd).raised) ∧
    ((hasFile && ff) = true →
      (runShutdown hasFile hasQt ff fq fqd).qtCloseRan = false ∧
      (runShutdown hasFile hasQt ff fq fqd).qdCloseRan = false ∧
      (runShutdown hasFile hasQt ff fq fqd).exportRan = false) ∧
    ((hasQt && fq) = true → (hasFile && ff) = false →
      (runShutdown hasFile hasQt ff fq fqd).qtCloseRan = true ∧
      (runShutdown hasFile hasQt ff fq fqd).qdCloseRan = false ∧
      (runShutdown hasFile hasQt ff fq fqd).exportRan = false) ∧
    ((hasFile && ff) = false → (hasQt && fq) = false →
      (runShutdown hasFile hasQt ff fq fqd).qdCloseRan = true ∧
      (runShutdown hasFile hasQt ff fq fqd).exportRan = true) := by
  cases hasFile <;> cases hasQt <;> cases ff <;> cases fq <;> cases fqd <;>
    cases fqd2 <;> decide

/-- Witness for C8_shutdown_sequence: a raising instrument-port close
with a healthy data-file close. -/
theorem C8_shutdown_sequence_witness :
    (runShutdown true true false true false).qtCloseRan = true ∧
    (runShutdown true true false true false).qdCloseRan = false ∧
    (runShutdown true true false true false).exportRan = false :=
  (C8_shutdown_sequence true true false true false false).2.2.2.1 (by decide) (by decide)

/-- C9: over any single-producer single-consumer trace, the aggregate
of the consumer's pops followed by the samples still queued is exactly
the push sequence in order — so the pops are a prefix of the pushes
with no loss, duplication or reordering, and equal the full push
sequence once the queue is drained — and delivering the popped
sequence puts it into history and the durable log in that same
order. -/
theorem C9_fifo_delivery_order (steps : List ChanStep) (hasLog : Bool) (limit : ℕ) :
    ((chanRun steps).popped ++ (chanRun steps).queue = pushedOf steps) ∧
    ((chanRun steps).queue = [] → (chanRun steps).popped = pushedOf steps) ∧
    ((mainLoop true limit hasLog ((chanRun steps).popped.map some) initState).1.temps =
      (chanRun steps).popped.map Sample.temp) ∧
    ((mainLoop true limit hasLog ((chanRun steps).popped.map some) initState).1.times =
      (chanRun steps).popped.map Sample.time) ∧
    ((mainLoop true limit hasLog ((chanRun steps).popped.map some) initState).1.logLines =
      if hasLog then
        (chanRun steps).popped.map (fun d => .data d.time d.temp d.field d.cap)
      else []) := by
  have hinv := chanRun_inv steps ⟨[], []⟩
  simp only [chanRun] at *
  have hfold := procIter_fold hasLog (steps.foldl chanStep ⟨[], []⟩).popped initState
  rw [mainLoop_continuous_all]
  refine ⟨by simpa using hinv, ?_, ?_, ?_, ?_⟩
  · intro hq
    have h := hinv
    rw [hq] at h
    simpa using h
  · simpa [initState] using hfold.1
  · simpa [initState] using hfold.2.2.2.1
  · simpa [initState] using hfold.2.2.2.2

/-- Witness for C9_fifo_delivery_order on a drained two-push trace. -/
theorem C9_fifo_delivery_order_witness :
    (chanRun [.push ⟨0, some 300, some 0, none⟩, .pop,
        .push ⟨1, some 295, some 500, none⟩, .pop]).popped =
      pushedOf [.push ⟨0, some 300, some 0, none⟩, .pop,
        .push ⟨1, some 295, some 500, none⟩, .pop] :=
  (C9_fifo_delivery_order [.push ⟨0, some 300, some 0, none⟩, .pop,
      .push ⟨1, some 295, some 500, none⟩, .pop] true 0).2.1 (by decide)

/-- C10: `_parse_fetch_response` is total (never raises) and returns a
dict whose raw field equals the input; its primary field is `None`
exactly when the input is empty, has fewer than 3 tab-separated
fields, or field 1 does not parse as a float; its secondary field is
`None` exactly when the input is empty, has fewer than 5 fields, or
field 4 does not parse (an empty input splits into one field, so the
fewer-than-5 condition of the claim subsumes it). -/
theorem C10_parse_fetch_response_fields (raw : String) :
    (Qt7600.parse_fetch_response raw).raw = raw ∧
    ((Qt7600.parse_fetch_response raw).primary = none ↔
      (raw = "" ∨ (raw.split (fun c => c = '\t')).length < 3 ∨
        pyFloat ((raw.split (fun c => c = '\t')).getD 1 "") = none)) ∧
    ((Qt7600.parse_fetch_response raw).secondary = none ↔
      (raw = "" ∨ (raw.split (fun c => c = '\t')).length < 5 ∨
        pyFloat ((raw.split (fun c => c = '\t')).getD 4 "") = none)) := by
  by_cases hraw : raw = ""
  · subst hraw
    refine ⟨rfl, ?_, ?_⟩ <;> simp [Qt7600.parse_fetch_response]
  · unfold Qt7600.parse_fetch_response
    simp only [hraw, if_false]
    refine ⟨by trivial, ?_, ?_⟩
    · by_cases hlen : 3 ≤ (raw.split (fun c => c = '\t')).length
      · cases hp : pyFloat ((raw.split (fun c => c = '\t')).getD 1 "") <;>
          simp [hlen, hp, hraw, Nat.not_lt.mpr hlen]
      · simp [hlen, hraw, Nat.lt_of_not_le hlen]
    · by_cases hlen : 5 ≤ (raw.split (fun c => c = '\t')).length
      · cases hp : pyFloat ((raw.split (fun c => c = '\t')).getD 4 "") <;>
          simp [hlen, hp, hraw, Nat.not_lt.mpr hlen]
      · simp [hlen, hraw, Nat.lt_of_not_le hlen]

end ForLCRmeter
